import Mathlib

/-!
Shallow embedding of the student-lifecycle and group/activation workflow of
the eduadmin admin dashboard (a React/TypeScript client).  Pure fragments of
the page components are translated into Lean functions; each mutation handler
is modelled as a function from the component's local state to the new state
together with the list of network calls it issues, the list of react-query
cache keys it invalidates, and the list of toast notifications it raises.
-/

/-- React-query cache keys used by the admin/teacher pages.
`adminGroupDetail` carries the route-param group id (a string), mirroring
the key `["adminGroupDetail", groupId]`. -/
inductive QueryKey
  | newStudents
  | adminStudents
  | adminGroups
  | adminGroupDetail (groupId : String)
  | adminTeachers
  | adminLevels
  deriving DecidableEq, Repr

/-- Toast notifications raised by the handlers (variant only; the i18n text is
presentation detail). -/
inductive Toast
  | success
  | failure
  | validationFailure
  | noChanges
  deriving DecidableEq, Repr

/-- One entry of an attendance submission payload. -/
structure AttendanceEntry where
  student_id : Int
  is_present : Bool
  deriving DecidableEq, Repr

/-- Body of the group create/update calls: `assistant_teacher_id` is `null`
(`none`) when the form field is the empty string. -/
structure GroupPayload where
  name : String
  level : String
  main_teacher_id : Int
  assistant_teacher_id : Option Int
  deriving DecidableEq, Repr

/-- Network calls the modelled handlers can issue, with their payloads. -/
inductive ApiCall
  | activateStudent (student_id : Int) (group_id : Int) (level : String)
  | removeStudent (group_id : Int) (student_id : Int)
  | addStudents (group_id : Int) (student_ids : List Int)
  | saveAttendance (group_id : Int) (date : String) (attendance : List AttendanceEntry)
  | createGroup (payload : GroupPayload)
  | updateGroup (group_id : Int) (payload : GroupPayload)
  deriving DecidableEq, Repr

/-- ASCII digit test (codepoints 48 to 57), the character class the regex
`\d` matches in JavaScript. -/
def isAsciiDigit (c : Char) : Bool := 48 ≤ c.toNat && c.toNat ≤ 57

/-- Decimal value of a digit list with accumulator; `none` when some
character is not an ASCII digit. -/
def readDecDigits : List Char → Nat → Option Nat
  | [], acc => some acc
  | c :: cs, acc =>
      if isAsciiDigit c then readDecDigits cs (10 * acc + (c.toNat - 48)) else none

/-- JavaScript `Number(s)` as used on this code base's id strings: the empty
string gives `0` (as in JS) and a string of decimal digits parses as that
number.  Any other string, which JS would turn into `NaN` (falsy and never
`> 0`), is mapped to `0`, which every guard below treats the same way. -/
def jsNumber (s : String) : Int := ((readDecDigits s.data 0).getD 0 : Nat)

/-- JavaScript `Array.from(new Set(l))`: keeps the first occurrence of each
element, in order.  `seen` accumulates the elements already emitted. -/
def jsSetDedupAux {α : Type} [DecidableEq α] : List α → List α → List α
  | _, [] => []
  | seen, a :: l =>
      if a ∈ seen then jsSetDedupAux seen l
      else a :: jsSetDedupAux (a :: seen) l

/-- JavaScript `Array.from(new Set(l))`. -/
def jsSetDedup {α : Type} [DecidableEq α] (l : List α) : List α :=
  jsSetDedupAux [] l

theorem mem_jsSetDedupAux {α : Type} [DecidableEq α] (l : List α) :
    ∀ (seen : List α) (x : α), x ∈ jsSetDedupAux seen l ↔ x ∈ l ∧ x ∉ seen := by
  induction l with
  | nil => intro seen x; simp [jsSetDedupAux]
  | cons a l ih =>
      intro seen x
      by_cases ha : a ∈ seen
      · simp only [jsSetDedupAux, if_pos ha, ih, List.mem_cons]
        constructor
        · rintro ⟨hx, hns⟩; exact ⟨Or.inr hx, hns⟩
        · rintro ⟨hx | hx, hns⟩
          · exact absurd (hx ▸ ha) hns
          · exact ⟨hx, hns⟩
      · simp only [jsSetDedupAux, if_neg ha, List.mem_cons, ih]
        constructor
        · rintro (rfl | ⟨hx, hns⟩)
          · exact ⟨Or.inl rfl, ha⟩
          · exact ⟨Or.inr hx, fun hc => hns (Or.inr hc)⟩
        · rintro ⟨rfl | hx, hns⟩
          · exact Or.inl rfl
          · by_cases hxa : x = a
            · exact Or.inl hxa
            · exact Or.inr ⟨hx, by simp [List.mem_cons, hxa, hns]⟩

theorem mem_jsSetDedup {α : Type} [DecidableEq α] (l : List α) (x : α) :
    x ∈ jsSetDedup l ↔ x ∈ l := by
  simp [jsSetDedup, mem_jsSetDedupAux]

theorem jsSetDedupAux_nodup {α : Type} [DecidableEq α] (l : List α) :
    ∀ seen : List α, (jsSetDedupAux seen l).Nodup := by
  induction l with
  | nil => intro seen; simp [jsSetDedupAux]
  | cons a l ih =>
      intro seen
      by_cases ha : a ∈ seen
      · simpa [jsSetDedupAux, if_pos ha] using ih seen
      · have htail := ih (a :: seen)
        have hnot : a ∉ jsSetDedupAux (a :: seen) l := by
          intro hc
          exact ((mem_jsSetDedupAux l (a :: seen) a).1 hc).2 (List.mem_cons_self a seen)
        simpa [jsSetDedupAux, if_neg ha] using (List.nodup_cons).2 ⟨hnot, htail⟩

theorem jsSetDedup_nodup {α : Type} [DecidableEq α] (l : List α) :
    (jsSetDedup l).Nodup :=
  jsSetDedupAux_nodup l []

theorem jsSetDedupAux_eq_self {α : Type} [DecidableEq α] (l : List α) :
    ∀ seen : List α, l.Nodup → (∀ x ∈ l, x ∉ seen) → jsSetDedupAux seen l = l := by
  induction l with
  | nil => intro seen _ _; rfl
  | cons a l ih =>
      intro seen hnd hdisj
      have ha : a ∉ seen := hdisj a (List.mem_cons_self a l)
      have hrest : ∀ x ∈ l, x ∉ a :: seen := by
        intro x hx
        have hxa : x ≠ a := by
          intro h; exact ((List.nodup_cons).1 hnd).1 (h ▸ hx)
        simp [List.mem_cons, hxa, hdisj x (List.mem_cons_of_mem a hx)]
      simp [jsSetDedupAux, if_neg ha,
        ih (a :: seen) ((List.nodup_cons).1 hnd).2 hrest]

theorem jsSetDedup_eq_self_of_nodup {α : Type} [DecidableEq α] (l : List α)
    (h : l.Nodup) : jsSetDedup l = l :=
  jsSetDedupAux_eq_self l [] h (by simp)

theorem one_le_length_iff (s : String) : 1 ≤ s.length ↔ s ≠ "" := by
  constructor
  · intro h he
    subst he
    exact absurd h (by decide)
  · intro h
    cases s with
    | mk data =>
        cases data with
        | nil => exact absurd rfl h
        | cons c cs => simp [String.length]

namespace AdminNewStudents

/-- Local state of the AdminNewStudents page that the activation workflow
reads and writes: the student picked for activation (its id), the group and
level selections of the dialog, the dialog-open flag, the mutation's pending
flag, and the touched flag of the group field. -/
structure State where
  selectedStudent : Option Int
  selectedGroupId : String
  selectedLevel : String
  isActivateOpen : Bool
  isActivating : Bool
  touchedGroup : Bool
  deriving DecidableEq, Repr

/-- Zod `activateSchema`: `studentId` a positive number, `groupId` and
`level` strings of length at least 1. -/
def activateSchema (studentId : Int) (groupId level : String) : Bool :=
  decide (0 < studentId) && decide (1 ≤ groupId.length) && decide (1 ≤ level.length)

/-- The memoised `activateValidation.success`: the schema applied to
`selectedStudent?.id ?? 0` and the current selections. -/
def isActivateValid (st : State) : Bool :=
  activateSchema (st.selectedStudent.getD 0) st.selectedGroupId st.selectedLevel

/-- The submit button's disabled condition `!isActivateValid || isActivating`. -/
def isActivateDisabled (st : State) : Bool :=
  !(isActivateValid st) || st.isActivating

/-- `handleActivate`: on invalid input, mark the group field touched and raise
a validation toast with no network call; otherwise issue the activation call
with `{student_id, group_id: Number(selectedGroupId), level}` (the mutation
becomes pending). -/
def handleActivate (st : State) : State × List ApiCall × List Toast :=
  if !(isActivateValid st) then
    ({ st with touchedGroup := true }, [], [Toast.validationFailure])
  else
    ({ st with isActivating := true },
      [ApiCall.activateStudent (st.selectedStudent.getD 0)
        (jsNumber st.selectedGroupId) st.selectedLevel], [])

/-- A click on the activate button: a disabled button (per
`isActivateDisabled`) does not fire its onClick handler, so the click is a
no-op; otherwise `handleActivate` runs. -/
def activateButtonClick (st : State) : State × List ApiCall × List Toast :=
  if isActivateDisabled st then (st, [], []) else handleActivate st

/-- `activateMutation.onSuccess`: invalidate exactly the `newStudents`,
`adminStudents` and `adminGroups` keys, close the dialog, clear the student,
group and level selections, and raise a success toast. -/
def activateOnSuccess (st : State) : State × List QueryKey × List Toast :=
  ({ st with isActivating := false, isActivateOpen := false,
             selectedStudent := none, selectedGroupId := "", selectedLevel := "" },
    [QueryKey.newStudents, QueryKey.adminStudents, QueryKey.adminGroups],
    [Toast.success])

/-- `activateMutation.onError`: only a destructive toast; no state change
beyond the pending flag settling, and no invalidation. -/
def activateOnError (st : State) : State × List QueryKey × List Toast :=
  ({ st with isActivating := false }, [], [Toast.failure])

theorem isActivateValid_iff (st : State) :
    isActivateValid st = true ↔
      0 < st.selectedStudent.getD 0 ∧ st.selectedGroupId ≠ "" ∧ st.selectedLevel ≠ "" := by
  simp [isActivateValid, activateSchema, one_le_length_iff, and_assoc]

theorem activateButtonClick_calls (st : State) :
    (activateButtonClick st).2.1 =
      if isActivateValid st && !st.isActivating then
        [ApiCall.activateStudent (st.selectedStudent.getD 0)
          (jsNumber st.selectedGroupId) st.selectedLevel]
      else [] := by
  cases hv : isActivateValid st <;> cases ha : st.isActivating <;>
    simp [activateButtonClick, isActivateDisabled, handleActivate, hv, ha]

end AdminNewStudents

/-- C1: in the new-students workflow, a click on the activate button issues
the activation network call if and only if the selected student's id is
positive, the selected group id is a non-empty string, the derived level is a
non-empty string, and no activation request is in flight; otherwise no call
is issued. -/
theorem C1_activate_submission_gating (st : AdminNewStudents.State) :
    (AdminNewStudents.activateButtonClick st).2.1 ≠ [] ↔
      (0 < st.selectedStudent.getD 0 ∧ st.selectedGroupId ≠ "" ∧
        st.selectedLevel ≠ "" ∧ st.isActivating = false) := by
  have hiff := AdminNewStudents.isActivateValid_iff st
  rw [AdminNewStudents.activateButtonClick_calls]
  cases hv : AdminNewStudents.isActivateValid st <;>
    cases ha : st.isActivating <;>
      simp [hv, ha, and_assoc] at hiff ⊢ <;> tauto

/-- C2: when the activation form is valid and no request is in flight, the
click issues exactly one activation call carrying the student id, the numeric
group id and the level, and on success exactly the `newStudents`,
`adminStudents` and `adminGroups` collections are invalidated, the group and
level selections are cleared, and the dialog closes. -/
theorem C2_activate_success_effects (st : AdminNewStudents.State)
    (hval : AdminNewStudents.isActivateValid st = true)
    (hidle : st.isActivating = false) :
    (AdminNewStudents.activateButtonClick st).2.1 =
      [ApiCall.activateStudent (st.selectedStudent.getD 0)
        (jsNumber st.selectedGroupId) st.selectedLevel] ∧
    (AdminNewStudents.activateOnSuccess st).2.1 =
      [QueryKey.newStudents, QueryKey.adminStudents, QueryKey.adminGroups] ∧
    (AdminNewStudents.activateOnSuccess st).1.selectedGroupId = "" ∧
    (AdminNewStudents.activateOnSuccess st).1.selectedLevel = "" ∧
    (AdminNewStudents.activateOnSuccess st).1.isActivateOpen = false := by
  refine ⟨?_, rfl, rfl, rfl, rfl⟩
  rw [AdminNewStudents.activateButtonClick_calls, hval, hidle]
  rfl

/-- Witness for C2 at the spec scenario: student id 42, group id "7", level
"B1". -/
theorem C2_activate_success_effects_witness :
    (AdminNewStudents.activateButtonClick ⟨some 42, "7", "B1", true, false, true⟩).2.1 =
      [ApiCall.activateStudent 42 7 "B1"] ∧
    (AdminNewStudents.activateOnSuccess ⟨some 42, "7", "B1", true, false, true⟩).2.1 =
      [QueryKey.newStudents, QueryKey.adminStudents, QueryKey.adminGroups] ∧
    (AdminNewStudents.activateOnSuccess ⟨some 42, "7", "B1", true, false, true⟩).1.isActivateOpen = false := by
  have h := C2_activate_success_effects ⟨some 42, "7", "B1", true, false, true⟩ (by decide) rfl
  refine ⟨?_, h.2.1, h.2.2.2.2⟩
  rw [h.1]
  decide

/-- C3: when the activation request fails, the workflow state is unchanged
(dialog-open flag and the student, group and level selections are retained),
no collection is invalidated, and a failure toast is raised. -/
theorem C3_activate_error_preserves_state (st : AdminNewStudents.State) :
    (AdminNewStudents.activateOnError st).1.isActivateOpen = st.isActivateOpen ∧
    (AdminNewStudents.activateOnError st).1.selectedStudent = st.selectedStudent ∧
    (AdminNewStudents.activateOnError st).1.selectedGroupId = st.selectedGroupId ∧
    (AdminNewStudents.activateOnError st).1.selectedLevel = st.selectedLevel ∧
    (AdminNewStudents.activateOnError st).2.1 = [] ∧
    (AdminNewStudents.activateOnError st).2.2 = [Toast.failure] :=
  ⟨rfl, rfl, rfl, rfl, rfl, rfl⟩

/-- JavaScript whitespace test restricted to the ASCII whitespace that can
occur in these forms' inputs. -/
def isJsWhitespace (c : Char) : Bool :=
  c == ' ' || c == '\t' || c == '\n' || c == '\r'

/-- JavaScript `String.prototype.trim` (and zod's `.trim()`): strip leading
and trailing whitespace. -/
def jsTrim (s : String) : String :=
  ⟨((s.data.dropWhile isJsWhitespace).reverse.dropWhile isJsWhitespace).reverse⟩

namespace StudentDialog

/-- The anchored regex `^\d{n}$` over the character list: exactly `n` ASCII
digits and nothing else. -/
def matchDigitsExact : Nat → List Char → Bool
  | 0, [] => true
  | 0, _ :: _ => false
  | _ + 1, [] => false
  | n + 1, c :: cs => isAsciiDigit c && matchDigitsExact n cs

/-- The phone rule of `studentSchema`:
`z.string().regex(/^\d{12}$/, ...)`. -/
def studentSchemaPhone (s : String) : Bool := matchDigitsExact 12 s.data

theorem matchDigitsExact_iff (n : Nat) (cs : List Char) :
    matchDigitsExact n cs = true ↔
      cs.length = n ∧ ∀ c ∈ cs, 48 ≤ c.toNat ∧ c.toNat ≤ 57 := by
  induction n generalizing cs with
  | zero => cases cs <;> simp [matchDigitsExact]
  | succ n ih =>
      cases cs with
      | nil => simp [matchDigitsExact]
      | cons c cs =>
          simp only [matchDigitsExact, Bool.and_eq_true, ih, isAsciiDigit,
            List.forall_mem_cons, List.length_cons, Nat.succ_inj,
            decide_eq_true_eq]
          tauto

end StudentDialog

namespace AdminTeachers

/-- The phone rule of `teacherSchema`: `z.string().trim().min(1, ...)` —
non-empty after trimming, with no digit-count constraint. -/
def teacherSchemaPhone (s : String) : Bool := decide (1 ≤ (jsTrim s).length)

end AdminTeachers

/-- Spec-side reading of a phone that is exactly 12 ASCII digits with no
separators. -/
def isTwelveAsciiDigits (s : String) : Prop :=
  s.data.length = 12 ∧ ∀ c ∈ s.data, 48 ≤ c.toNat ∧ c.toNat ≤ 57

/-- C4 counterexample: the teacher form validator accepts the phone "1",
which is not exactly 12 ASCII digits, so accepts-iff-12-digits fails for the
teacher form (the student form's rule is the 12-digit regex). -/
theorem C4_counterexample :
    AdminTeachers.teacherSchemaPhone "1" = true ∧ ¬ isTwelveAsciiDigits "1" := by
  constructor
  · decide
  · intro h
    have := h.1
    simp at this

/-- C4 amended: the student form validator accepts a phone iff it is exactly
12 ASCII digits; the teacher form validator accepts a phone iff it is
non-empty after trimming (so the field is required in both forms — the empty
phone is rejected by both — but the teacher form has no 12-digit rule). -/
theorem C4_phone_validators_amended (s : String) :
    (StudentDialog.studentSchemaPhone s = true ↔ isTwelveAsciiDigits s) ∧
    (AdminTeachers.teacherSchemaPhone s = true ↔ jsTrim s ≠ "") ∧
    StudentDialog.studentSchemaPhone "" = false ∧
    AdminTeachers.teacherSchemaPhone "" = false := by
  refine ⟨?_, ?_, by decide, by decide⟩
  · exact StudentDialog.matchDigitsExact_iff 12 s.data
  · simp [AdminTeachers.teacherSchemaPhone, one_le_length_iff]

namespace AdminGroups

/-- Form data of the AdminGroups create/edit dialog: every field is a string
(Select values are id strings; the assistant field's unset value is the empty
string). -/
structure GroupFormData where
  name : String
  level : String
  main_teacher_id : String
  assistant_teacher_id : String
  deriving DecidableEq, Repr

/-- Zod `groupSchema`: trimmed name, level and main teacher id must be
non-empty; `assistant_teacher_id` is an optional string with no further
constraint. -/
def groupSchema (f : GroupFormData) : Bool :=
  decide (1 ≤ (jsTrim f.name).length) && decide (1 ≤ (jsTrim f.level).length) &&
    decide (1 ≤ (jsTrim f.main_teacher_id).length)

/-- Request body built by createGroupMutation/updateGroupMutation: numeric
main teacher id; assistant id, or null when the field is the empty string
(JS string truthiness). -/
def groupPayload (f : GroupFormData) : GroupPayload :=
  { name := f.name, level := f.level,
    main_teacher_id := jsNumber f.main_teacher_id,
    assistant_teacher_id :=
      if f.assistant_teacher_id = "" then none
      else some (jsNumber f.assistant_teacher_id) }

/-- `handleSubmit` of the AdminGroups dialog: an invalid form raises the
validation toast and issues no call; a valid form starts the update mutation
when editing, else the create mutation. -/
def handleSubmit (editingGroupId : Option Int) (f : GroupFormData) :
    List ApiCall × List Toast :=
  if !(groupSchema f) then ([], [Toast.validationFailure])
  else
    match editingGroupId with
    | some gid => ([ApiCall.updateGroup gid (groupPayload f)], [])
    | none => ([ApiCall.createGroup (groupPayload f)], [])

/-- The assistant-teacher Select's onValueChange: the explicit "none" item is
stored as the empty string. -/
def assistantOnValueChange (f : GroupFormData) (value : String) : GroupFormData :=
  { f with assistant_teacher_id := if value = "none" then "" else value }

/-- The initial (not-yet-chosen) form of the create dialog. -/
def initialGroupForm : GroupFormData := ⟨"", "", "", ""⟩

end AdminGroups

namespace AdminGroupDetail

/-- Form data of the group-detail edit dialog (`UpdateGroupData`); the
optional assistant field holds the empty string when absent. -/
structure UpdateGroupData where
  name : String
  level : String
  main_teacher_id : String
  assistant_teacher_id : String
  deriving DecidableEq, Repr

/-- Fields of the edit form that can carry an error. -/
inductive EditField
  | name
  | level
  | main_teacher_id
  | assistant_teacher_id
  deriving DecidableEq, Repr

/-- Error messages of `validateEditGroup` (i18n keys). -/
inductive EditError
  | nameRequired
  | nameTooShort
  | nameTooLong
  | levelRequired
  | mainTeacherRequired
  | assistantDifferent
  deriving DecidableEq, Repr

/-- `validateEditGroup`: the memoised error record, as the list of
(field, error) pairs it populates.  The name gets at most one of its three
errors; the assistant gets the must-differ error when it is set (non-empty)
and equals the main teacher id. -/
def validateEditGroup (f : UpdateGroupData) : List (EditField × EditError) :=
  (if jsTrim f.name = "" then [(EditField.name, EditError.nameRequired)]
   else if (jsTrim f.name).length < 2 then [(EditField.name, EditError.nameTooShort)]
   else if 80 < (jsTrim f.name).length then [(EditField.name, EditError.nameTooLong)]
   else []) ++
  (if jsTrim f.level = "" then [(EditField.level, EditError.levelRequired)] else []) ++
  (if f.main_teacher_id = "" then
     [(EditField.main_teacher_id, EditError.mainTeacherRequired)] else []) ++
  (if f.assistant_teacher_id ≠ "" ∧ f.assistant_teacher_id = f.main_teacher_id then
     [(EditField.assistant_teacher_id, EditError.assistantDifferent)] else [])

/-- `isEditValid`: the error record is empty. -/
def isEditValid (f : UpdateGroupData) : Bool := decide (validateEditGroup f = [])

/-- The dirty-check normalisation: trimmed name and level, teacher ids as
stored (the assistant id is already a string, empty for none). -/
def normalizeEdit (d : UpdateGroupData) : UpdateGroupData :=
  ⟨jsTrim d.name, jsTrim d.level, d.main_teacher_id, d.assistant_teacher_id⟩

/-- `isEditDirty`: false until the initial values have loaded, then a
comparison of the normalised form against the normalised initial values. -/
def isEditDirty (d : UpdateGroupData) : Option UpdateGroupData → Bool
  | none => false
  | some i => decide (normalizeEdit d ≠ normalizeEdit i)

/-- Request body of updateGroupMutation: name and level trimmed, numeric
main teacher id, assistant id or null when empty. -/
def updatePayload (f : UpdateGroupData) : GroupPayload :=
  { name := jsTrim f.name, level := jsTrim f.level,
    main_teacher_id := jsNumber f.main_teacher_id,
    assistant_teacher_id :=
      if f.assistant_teacher_id = "" then none
      else some (jsNumber f.assistant_teacher_id) }

/-- `handleUpdateGroup`: stops (surfacing the errors) when validation fails;
toasts no-changes and stops when the form is not dirty; otherwise issues the
PUT call. -/
def handleUpdateGroup (groupId : String) (f : UpdateGroupData)
    (initialData : Option UpdateGroupData) : List ApiCall × List Toast :=
  if validateEditGroup f ≠ [] then ([], [])
  else if !(isEditDirty f initialData) then ([], [Toast.noChanges])
  else ([ApiCall.updateGroup (jsNumber groupId) (updatePayload f)], [])

/-- `handleRemoveStudent`: the removal mutation runs only when the operator
confirms the `window.confirm` prompt. -/
def handleRemoveStudent (groupId : String) (confirmed : Bool) (studentId : Int) :
    List ApiCall :=
  if confirmed then [ApiCall.removeStudent (jsNumber groupId) studentId] else []

/-- removeStudentMutation.onSuccess: invalidates only this group's detail key
and toasts success. -/
def removeStudentOnSuccess (groupId : String) : List QueryKey × List Toast :=
  ([QueryKey.adminGroupDetail groupId], [Toast.success])

/-- The assistant-teacher Select onValueChange of the edit dialog: the
explicit "none" item is stored as the empty string. -/
def assistantOnValueChange (f : UpdateGroupData) (value : String) : UpdateGroupData :=
  { f with assistant_teacher_id := if value = "none" then "" else value }

/-- The initial edit-group state, before any load or choice. -/
def initialEditGroup : UpdateGroupData := ⟨"", "", "", ""⟩

end AdminGroupDetail

/-- C5 counterexample: in the AdminGroups create dialog a form whose
assistant teacher equals the main teacher (id "3") passes `groupSchema`, and
`handleSubmit` issues the create call — validation does not fail with a
must-differ error and submission is not blocked, so the claim fails for that
form. -/
theorem C5_counterexample :
    AdminGroups.groupSchema ⟨"Group A", "A1", "3", "3"⟩ = true ∧
    (AdminGroups.handleSubmit none ⟨"Group A", "A1", "3", "3"⟩).1 =
      [ApiCall.createGroup ⟨"Group A", "A1", 3, some 3⟩] := by
  constructor <;> decide

/-- C5 amended: in the group-detail edit form an assistant selection that is
set and equals the main teacher id always yields the must-differ error and
`handleUpdateGroup` issues no call; the AdminGroups dialog's `groupSchema`,
however, does not depend on the assistant field at all, so that dialog
performs no such check. -/
theorem C5_must_differ_amended (f : AdminGroupDetail.UpdateGroupData)
    (hset : f.assistant_teacher_id ≠ "")
    (heq : f.assistant_teacher_id = f.main_teacher_id) :
    ((AdminGroupDetail.EditField.assistant_teacher_id,
        AdminGroupDetail.EditError.assistantDifferent) ∈
      AdminGroupDetail.validateEditGroup f) ∧
    (∀ gid i, (AdminGroupDetail.handleUpdateGroup gid f i).1 = []) ∧
    (∀ (g : AdminGroups.GroupFormData) (a : String),
      AdminGroups.groupSchema { g with assistant_teacher_id := a } =
        AdminGroups.groupSchema g) := by
  have hmem : (AdminGroupDetail.EditField.assistant_teacher_id,
      AdminGroupDetail.EditError.assistantDifferent) ∈
      AdminGroupDetail.validateEditGroup f := by
    simp [AdminGroupDetail.validateEditGroup, if_pos (And.intro hset heq)]
  refine ⟨hmem, ?_, fun g a => rfl⟩
  intro gid i
  have hne : AdminGroupDetail.validateEditGroup f ≠ [] := List.ne_nil_of_mem hmem
  simp [AdminGroupDetail.handleUpdateGroup, hne]

/-- Witness for C5 amended at a concrete edit form whose assistant equals the
main teacher ("3"). -/
theorem C5_must_differ_amended_witness :
    ((AdminGroupDetail.EditField.assistant_teacher_id,
        AdminGroupDetail.EditError.assistantDifferent) ∈
      AdminGroupDetail.validateEditGroup ⟨"Edited", "A1", "3", "3"⟩) ∧
    (AdminGroupDetail.handleUpdateGroup "7" ⟨"Edited", "A1", "3", "3"⟩ none).1 = [] := by
  have h := C5_must_differ_amended ⟨"Edited", "A1", "3", "3"⟩ (by decide) rfl
  exact ⟨h.1, h.2.1 "7" none⟩

/-- C7: without confirmation no removal call occurs; with confirmation
exactly one removal call carrying the group and student ids is issued, and on
success the invalidation set is exactly this group's detail key — every
invalidated key equals it, and in particular the groups list is untouched. -/
theorem C7_remove_student_confirmation (groupId : String) (studentId : Int) :
    AdminGroupDetail.handleRemoveStudent groupId false studentId = [] ∧
    AdminGroupDetail.handleRemoveStudent groupId true studentId =
      [ApiCall.removeStudent (jsNumber groupId) studentId] ∧
    (AdminGroupDetail.removeStudentOnSuccess groupId).1 =
      [QueryKey.adminGroupDetail groupId] ∧
    (∀ k ∈ (AdminGroupDetail.removeStudentOnSuccess groupId).1,
      k = QueryKey.adminGroupDetail groupId) ∧
    QueryKey.adminGroups ∉ (AdminGroupDetail.removeStudentOnSuccess groupId).1 := by
  refine ⟨rfl, rfl, rfl, ?_, ?_⟩
  · intro k hk
    simpa [AdminGroupDetail.removeStudentOnSuccess] using hk
  · simp [AdminGroupDetail.removeStudentOnSuccess]

/-- Witness for C7 at the spec scenario: student id 9, group id "7". -/
theorem C7_remove_student_confirmation_witness :
    AdminGroupDetail.handleRemoveStudent "7" false 9 = [] ∧
    AdminGroupDetail.handleRemoveStudent "7" true 9 = [ApiCall.removeStudent 7 9] ∧
    QueryKey.adminGroups ∉ (AdminGroupDetail.removeStudentOnSuccess "7").1 := by
  have h := C7_remove_student_confirmation "7" 9
  refine ⟨h.1, ?_, h.2.2.2.2⟩
  rw [h.2.1]
  decide

/-- C9 counterexample: in both group forms, selecting the explicit "no
assistant teacher" item yields a state equal to the not-yet-chosen initial
state — the explicit none-marker is not represented distinctly from unset. -/
theorem C9_counterexample :
    AdminGroups.assistantOnValueChange AdminGroups.initialGroupForm "none" =
      AdminGroups.initialGroupForm ∧
    AdminGroupDetail.assistantOnValueChange AdminGroupDetail.initialEditGroup "none" =
      AdminGroupDetail.initialEditGroup := by
  constructor <;> decide

/-- C9 amended: both dialogs present an explicit "none" select item, but
their onValueChange handlers store an explicit none selection as the empty
string — the very value of the not-yet-chosen initial state — so in form
state the explicit none-marker coincides with unset for every form state. -/
theorem C9_none_conflated_amended (f : AdminGroups.GroupFormData)
    (g : AdminGroupDetail.UpdateGroupData) :
    (AdminGroups.assistantOnValueChange f "none").assistant_teacher_id =
      AdminGroups.initialGroupForm.assistant_teacher_id ∧
    (AdminGroupDetail.assistantOnValueChange g "none").assistant_teacher_id =
      AdminGroupDetail.initialEditGroup.assistant_teacher_id := by
  constructor <;>
    simp [AdminGroups.assistantOnValueChange, AdminGroupDetail.assistantOnValueChange,
      AdminGroups.initialGroupForm, AdminGroupDetail.initialEditGroup]

namespace AddStudentsDialog

/-- Error messages of the add-students selection (i18n keys). -/
inductive SelectionError
  | invalidGroupId
  | selectAtLeastOne
  | maxStudentsError
  deriving DecidableEq, Repr

/-- Local state of the add-students dialog: the numeric group id
(`Number(groupId)`), the selected student ids in click order, and the current
selection error. -/
structure State where
  numericGroupId : Int
  selectedStudents : List Int
  selectionError : Option SelectionError
  deriving DecidableEq, Repr

/-- `isGroupIdValid`: `Number.isFinite(numericGroupId) && numericGroupId > 0`
(an `Int` is always finite; the NaN case is `jsNumber`'s 0). -/
def isGroupIdValid (st : State) : Bool := decide (0 < st.numericGroupId)

/-- `handleAddStudents`: reject with an error and no call when the group id
is invalid, the de-duplicated selection is empty, or it exceeds 100 entries;
otherwise issue the add call with the selected ids. -/
def handleAddStudents (st : State) : State × List ApiCall :=
  if !(isGroupIdValid st) then
    ({ st with selectionError := some SelectionError.invalidGroupId }, [])
  else
    let uniqueIds := jsSetDedup st.selectedStudents
    if uniqueIds.length = 0 then
      ({ st with selectionError := some SelectionError.selectAtLeastOne }, [])
    else if 100 < uniqueIds.length then
      ({ st with selectionError := some SelectionError.maxStudentsError }, [])
    else
      (st, [ApiCall.addStudents st.numericGroupId st.selectedStudents])

/-- `handleToggleStudent`: clear the error; remove the student if already
selected (`includes`), else append it. -/
def handleToggleStudent (st : State) (studentId : Int) : State :=
  { st with
    selectionError := none,
    selectedStudents :=
      if studentId ∈ st.selectedStudents then
        st.selectedStudents.filter (fun id => id ≠ studentId)
      else st.selectedStudents ++ [studentId] }

/-- `handleSelectAllFiltered`: form the de-duplicated union of the current
selection with the filtered ids; above 100 entries keep the selection and
surface the capacity error, otherwise adopt the union with no error. -/
def handleSelectAllFiltered (st : State) (filteredIds : List Int) : State :=
  let next := jsSetDedup (st.selectedStudents ++ filteredIds)
  if 100 < next.length then
    { st with selectionError := some SelectionError.maxStudentsError }
  else
    { st with selectedStudents := next, selectionError := none }

/-- `handleClearSelection`. -/
def handleClearSelection (st : State) : State :=
  { st with selectedStudents := [], selectionError := none }

end AddStudentsDialog

/-- C6: empty or over-100 de-duplicated selections are rejected client-side
with an error, the selection untouched and no call; select-all-filtered whose
union exceeds 100 leaves the selection unchanged with the capacity error
while a union of exactly 100 is adopted; toggling preserves freedom from
duplicates and select-all only ever installs duplicate-free selections; and a
call, when issued from a duplicate-free selection, carries exactly the
de-duplicated selection, non-empty and capped at 100. -/
theorem C6_batch_add_dedup_and_cap :
    (∀ st : AddStudentsDialog.State,
      (jsSetDedup st.selectedStudents = [] ∨ 100 < (jsSetDedup st.selectedStudents).length) →
        (AddStudentsDialog.handleAddStudents st).2 = [] ∧
        (AddStudentsDialog.handleAddStudents st).1.selectionError ≠ none ∧
        (AddStudentsDialog.handleAddStudents st).1.selectedStudents = st.selectedStudents) ∧
    (∀ (st : AddStudentsDialog.State) (ids : List Int),
      100 < (jsSetDedup (st.selectedStudents ++ ids)).length →
        (AddStudentsDialog.handleSelectAllFiltered st ids).selectedStudents =
          st.selectedStudents ∧
        (AddStudentsDialog.handleSelectAllFiltered st ids).selectionError =
          some AddStudentsDialog.SelectionError.maxStudentsError) ∧
    (∀ (st : AddStudentsDialog.State) (ids : List Int),
      (jsSetDedup (st.selectedStudents ++ ids)).length = 100 →
        (AddStudentsDialog.handleSelectAllFiltered st ids).selectedStudents =
          jsSetDedup (st.selectedStudents ++ ids) ∧
        (AddStudentsDialog.handleSelectAllFiltered st ids).selectionError = none) ∧
    (∀ (st : AddStudentsDialog.State) (sid : Int), st.selectedStudents.Nodup →
      (AddStudentsDialog.handleToggleStudent st sid).selectedStudents.Nodup) ∧
    (∀ (st : AddStudentsDialog.State) (ids : List Int),
      (AddStudentsDialog.handleSelectAllFiltered st ids).selectedStudents.Nodup ∨
        (AddStudentsDialog.handleSelectAllFiltered st ids).selectedStudents =
          st.selectedStudents) ∧
    (∀ st : AddStudentsDialog.State, st.selectedStudents.Nodup →
      (AddStudentsDialog.handleAddStudents st).2 ≠ [] →
        (AddStudentsDialog.handleAddStudents st).2 =
          [ApiCall.addStudents st.numericGroupId (jsSetDedup st.selectedStudents)] ∧
        st.selectedStudents ≠ [] ∧ st.selectedStudents.length ≤ 100) := by
  refine ⟨?_, ?_, ?_, ?_, ?_, ?_⟩
  · intro st h
    unfold AddStudentsDialog.handleAddStudents
    by_cases hg : AddStudentsDialog.isGroupIdValid st
    · rcases h with h | h
      · simp [hg, h]
      · have hz : ¬ (jsSetDedup st.selectedStudents).length = 0 := by omega
        simp [hg, hz, h]
    · simp [hg]
  · intro st ids h
    simp [AddStudentsDialog.handleSelectAllFiltered, h]
  · intro st ids h
    simp [AddStudentsDialog.handleSelectAllFiltered, h]
  · intro st sid hnd
    by_cases hm : sid ∈ st.selectedStudents
    · have hf : (st.selectedStudents.filter (fun id => id ≠ sid)).Nodup :=
        hnd.filter _
      simpa [AddStudentsDialog.handleToggleStudent, hm] using hf
    · have hb : (st.selectedStudents ++ [sid]).Nodup := by
        refine List.nodup_append.2 ⟨hnd, List.nodup_singleton sid, ?_⟩
        intro a ha hsb
        rw [List.mem_singleton] at hsb
        exact hm (hsb ▸ ha)
      simpa [AddStudentsDialog.handleToggleStudent, hm] using hb
  · intro st ids
    unfold AddStudentsDialog.handleSelectAllFiltered
    by_cases h : 100 < (jsSetDedup (st.selectedStudents ++ ids)).length
    · right; simp [h]
    · left; simpa [h] using jsSetDedup_nodup (st.selectedStudents ++ ids)
  · intro st hnd hne
    have hsd : jsSetDedup st.selectedStudents = st.selectedStudents :=
      jsSetDedup_eq_self_of_nodup _ hnd
    unfold AddStudentsDialog.handleAddStudents at hne ⊢
    by_cases hg : AddStudentsDialog.isGroupIdValid st
    · by_cases h0 : (jsSetDedup st.selectedStudents).length = 0
      · simp [hg, h0] at hne
      · by_cases h100 : 100 < (jsSetDedup st.selectedStudents).length
        · simp [hg, h0, h100] at hne
        · rw [hsd] at h0 h100
          have hnil : st.selectedStudents ≠ [] := by
            intro hnil
            rw [hnil] at h0
            exact h0 rfl
          exact ⟨by simp [hg, hnil, h100, hsd], hnil, by omega⟩
    · simp [hg] at hne

/-- Witness for C6: the empty selection is rejected with an error, and a
duplicate-free selection of three students for group 7 is sent as is. -/
theorem C6_batch_add_dedup_and_cap_witness :
    (AddStudentsDialog.handleAddStudents ⟨5, [], none⟩).2 = [] ∧
    (AddStudentsDialog.handleAddStudents ⟨5, [], none⟩).1.selectionError ≠ none ∧
    (AddStudentsDialog.handleAddStudents ⟨7, [1, 2, 3], none⟩).2 =
      [ApiCall.addStudents 7 (jsSetDedup [1, 2, 3])] := by
  have h1 := C6_batch_add_dedup_and_cap.1 ⟨5, [], none⟩ (Or.inl rfl)
  have h2 := C6_batch_add_dedup_and_cap.2.2.2.2.2 ⟨7, [1, 2, 3], none⟩
    (by decide) (by decide)
  exact ⟨h1.1, h1.2.1, h2.1⟩

namespace TeacherAttendance

/-- Lookup of a student's mark in the attendance record of the current
group/date key (`attendanceForSelection[s.id]`). -/
def lookupMark (marks : List (Int × Bool)) (sid : Int) : Option Bool :=
  (marks.find? (fun p => p.1 == sid)).map (fun p => p.2)

/-- `payloadAttendance` of the save button: one entry per student of the
group, `is_present` defaulting to true when the student has no mark
(`attendanceForSelection[s.id] ?? true`). -/
def payloadAttendance (students : List Int) (marks : List (Int × Bool)) :
    List AttendanceEntry :=
  students.map (fun s => ⟨s, (lookupMark marks s).getD true⟩)

/-- The initialization effect: when students load for a group/date key with
no record yet, every student is marked present. -/
def initAttendance (students : List Int) : List (Int × Bool) :=
  students.map (fun s => (s, true))

/-- Local state of the TeacherAttendance page relevant to saving: the
selected group id string and date, the marks of the current key, the loaded
students (their ids), the mutation's pending flag and the loading flag. -/
structure State where
  selectedGroupId : String
  selectedDate : String
  marks : List (Int × Bool)
  students : Option (List Int)
  isPending : Bool
  studentsLoading : Bool
  deriving DecidableEq, Repr

/-- The save button's disabled condition
`totalStudents === 0 || isPending || studentsLoading`. -/
def saveDisabled (st : State) : Bool :=
  decide ((st.students.getD []).length = 0) || st.isPending || st.studentsLoading

/-- A click on the save button: a disabled button does not fire; the handler
also returns early unless the numeric group id is truthy, the key is
non-empty and the students are loaded and non-empty; then it issues exactly
one call with the full payload. -/
def saveButtonClick (st : State) : List ApiCall :=
  if saveDisabled st then []
  else
    match st.students with
    | none => []
    | some ss =>
        if jsNumber st.selectedGroupId = 0 ∨ st.selectedGroupId = "" ∨ ss = [] then []
        else
          [ApiCall.saveAttendance (jsNumber st.selectedGroupId) st.selectedDate
            (payloadAttendance ss st.marks)]

/-- saveAttendanceMutation.onSuccess: a success toast only — no cache key is
invalidated (there is no attendance read-back endpoint). -/
def saveOnSuccess : List QueryKey × List Toast := ([], [Toast.success])

end TeacherAttendance

namespace TeacherGroupDetail

/-- The attendance tab's payload in the teacher GroupDetail page: one entry
per student with `attendanceForDate[s.id] ?? true`. -/
def attendancePayload (students : List Int) (marks : List (Int × Bool)) :
    List AttendanceEntry :=
  students.map
    (fun s => ⟨s, ((marks.find? (fun p => p.1 == s)).map (fun p => p.2)).getD true⟩)

/-- The initialization effect of the attendance tab: when students load for a
date with no record yet, every student is marked present. -/
def initAttendance (students : List Int) : List (Int × Bool) :=
  students.map (fun s => (s, true))

end TeacherGroupDetail

/-- C8: when the attendance save fires (group selected, students loaded and
non-empty, no save in flight), exactly one call is issued whose payload
contains exactly one entry per student of the group — the payload is the map
over the full student list, its length is the student count, and every
student contributes its marked value (default true) — and on success no
cached collection is invalidated. -/
theorem C8_attendance_save_payload (st : TeacherAttendance.State) (ss : List Int)
    (hss : st.students = some ss) (hne : ss ≠ [])
    (hgid : jsNumber st.selectedGroupId ≠ 0) (hkey : st.selectedGroupId ≠ "")
    (hpend : st.isPending = false) (hload : st.studentsLoading = false) :
    TeacherAttendance.saveButtonClick st =
      [ApiCall.saveAttendance (jsNumber st.selectedGroupId) st.selectedDate
        (TeacherAttendance.payloadAttendance ss st.marks)] ∧
    (TeacherAttendance.payloadAttendance ss st.marks).length = ss.length ∧
    (∀ s ∈ ss,
      (⟨s, (TeacherAttendance.lookupMark st.marks s).getD true⟩ : AttendanceEntry) ∈
        TeacherAttendance.payloadAttendance ss st.marks) ∧
    TeacherAttendance.saveOnSuccess.1 = [] := by
  have hdis : TeacherAttendance.saveDisabled st = false := by
    simp [TeacherAttendance.saveDisabled, hss, hpend, hload, List.length_eq_zero, hne]
  refine ⟨?_, by simp [TeacherAttendance.payloadAttendance], ?_, rfl⟩
  · simp [TeacherAttendance.saveButtonClick, hdis, hss, hgid, hkey, hne]
  · intro s hs
    exact List.mem_map.2 ⟨s, hs, rfl⟩

/-- Witness for C8 at the spec scenario: group "7", date "2024-05-01",
five students with three marked present and two absent. -/
theorem C8_attendance_save_payload_witness :
    TeacherAttendance.saveButtonClick
      ⟨"7", "2024-05-01", [(1, true), (2, true), (3, true), (4, false), (5, false)],
        some [1, 2, 3, 4, 5], false, false⟩ =
      [ApiCall.saveAttendance 7 "2024-05-01"
        [⟨1, true⟩, ⟨2, true⟩, ⟨3, true⟩, ⟨4, false⟩, ⟨5, false⟩]] ∧
    TeacherAttendance.saveOnSuccess.1 = [] := by
  have h := C8_attendance_save_payload
    ⟨"7", "2024-05-01", [(1, true), (2, true), (3, true), (4, false), (5, false)],
      some [1, 2, 3, 4, 5], false, false⟩
    [1, 2, 3, 4, 5] rfl (by decide) (by decide) (by decide) rfl rfl
  refine ⟨?_, h.2.2.2⟩
  rw [h.1]
  decide

/-- C10: in both attendance views (the TeacherAttendance page and the
teacher GroupDetail attendance tab), the initialization effect marks exactly
the students of the group present, and the submission payload gives a
student with no explicit mark is_present = true. -/
theorem C10_attendance_defaults_present (students : List Int)
    (marks : List (Int × Bool)) (s : Int) :
    ((s, true) ∈ TeacherAttendance.initAttendance students ↔ s ∈ students) ∧
    ((s, true) ∈ TeacherGroupDetail.initAttendance students ↔ s ∈ students) ∧
    (s ∈ students → TeacherAttendance.lookupMark marks s = none →
      (⟨s, true⟩ : AttendanceEntry) ∈
        TeacherAttendance.payloadAttendance students marks) ∧
    (s ∈ students → marks.find? (fun p => p.1 == s) = none →
      (⟨s, true⟩ : AttendanceEntry) ∈
        TeacherGroupDetail.attendancePayload students marks) := by
  refine ⟨?_, ?_, ?_, ?_⟩
  · simp [TeacherAttendance.initAttendance]
  · simp [TeacherGroupDetail.initAttendance]
  · intro hs hnone
    refine List.mem_map.2 ⟨s, hs, ?_⟩
    rw [hnone]
    rfl
  · intro hs hnone
    refine List.mem_map.2 ⟨s, hs, ?_⟩
    rw [hnone]
    rfl

/-- Witness for C10: two students, an explicit absent mark for student 2 and
no mark for student 1, which is submitted present in both views. -/
theorem C10_attendance_defaults_present_witness :
    ((1, true) ∈ TeacherAttendance.initAttendance [1, 2]) ∧
    ((⟨1, true⟩ : AttendanceEntry) ∈
      TeacherAttendance.payloadAttendance [1, 2] [(2, false)]) ∧
    ((⟨1, true⟩ : AttendanceEntry) ∈
      TeacherGroupDetail.attendancePayload [1, 2] [(2, false)]) := by
  have h := C10_attendance_defaults_present [1, 2] [(2, false)] 1
  exact ⟨h.1.2 (by decide), h.2.2.1 (by decide) (by decide),
    h.2.2.2 (by decide) (by decide)⟩
